import Mathlib

/-!
Shallow embedding of `src/chardev_lkm/chardev.c`, a single-slot character
device driver, together with theorems settling the specification claims.

Modelling conventions:
* Bytes are `Nat` values (0..255); the static array `char message[256]` is a
  `List Nat`.  The kernel `sprintf` call in `dev_write` performs no bounds
  check, so the list stored by a write is the full composed string, which may
  be longer than the declared 256-byte capacity (that overflow is itself one
  of the findings below).
* `size_of_message` (a C `short`) is modelled as `Nat`; every value reached in
  the claims is far below 2^15, so short overflow never matters here.
* `open_num` is a C `int`; the kernel is compiled with wrap-on-overflow
  semantics (`-fno-strict-overflow`), so it is modelled as an `Int` reduced to
  the signed 32-bit range after each increment.
* `copy_to_user` can fail depending on the caller-supplied destination; this
  environment choice is an explicit `Bool` argument of `dev_read` (`true` =
  the copy succeeds, i.e. `error_count == 0`).  The bytes that reach the
  caller buffer on a successful copy are recorded in the `delivered` field;
  on a failed copy the partially copied bytes are not modelled.
* `chardev_init` is modelled over the outcomes of the three kernel
  registration calls, recording the kernel calls it makes in order in a trace.
-/

set_option maxRecDepth 8192

namespace Chardev

/-- Size of the static array `char message[256]` in the source. -/
def CAPACITY : Nat := 256

/-- The errno value `EFAULT` (14); `dev_read` returns `-EFAULT` on copy
failure. -/
def EFAULT : Int := 14

/-- The static driver state: `message`, `size_of_message`, `open_num`. -/
structure State where
  message : List Nat
  size_of_message : Nat
  open_num : Int
  deriving DecidableEq, Repr

/-- State after module load: `message[256] = {0}`, `size_of_message` and
`open_num` zero-initialised statics. -/
def initState : State :=
  { message := List.replicate 256 0, size_of_message := 0, open_num := 0 }

/-- Reduce an integer to the signed 32-bit range, the effect of storing into
a C `int` under the kernel wraparound semantics. -/
def wrap32 (x : Int) : Int := (x + 2147483648) % 4294967296 - 2147483648

/-- `dev_open`: executes `open_num++;` and `return 0;`. -/
def dev_open (s : State) : State × Int :=
  ({ s with open_num := wrap32 (s.open_num + 1) }, 0)

/-- `dev_release`: logs and returns 0, no state change. -/
def dev_release (s : State) : State × Int := (s, 0)

/-- The bytes `%s` reads from the caller buffer: everything up to (not
including) the first zero byte. -/
def cstr (buffer : List Nat) : List Nat := buffer.takeWhile (fun v => v != 0)

/-- The decimal digits of `n` as bytes, what `%zu` prints. -/
def decimalDigits (n : Nat) : List Nat := (Nat.toDigits 10 n).map Char.toNat

/-- The bytes `" (%zu letters)"` appends after the copied string: a space,
an opening bracket, the decimal digits of `len`, the text `" letters"` and a
closing bracket. -/
def lengthTag (len : Nat) : List Nat :=
  [32, 40] ++ decimalDigits len ++ [32, 108, 101, 116, 116, 101, 114, 115, 41]

/-- The full string composed by
`sprintf(message, "%s (%zu letters)", buffer, len)`. -/
def composed (buffer : List Nat) (len : Nat) : List Nat :=
  cstr buffer ++ lengthTag len

/-- `dev_write`: stores the composed string in `message`, sets
`size_of_message = strlen(message)` and returns `len` unconditionally.
`sprintf` performs no truncation, so the stored list is the whole composed
string even when it is longer than `CAPACITY`. -/
def dev_write (s : State) (buffer : List Nat) (len : Nat) : State × Nat :=
  let msg := composed buffer len
  ({ s with message := msg, size_of_message := msg.length }, len)

/-- Result of a `dev_read` call: the driver state after the call, the bytes
placed in the caller buffer, and the returned value. -/
structure ReadResult where
  state : State
  delivered : List Nat
  ret : Int
  deriving DecidableEq, Repr

/-- `dev_read`: calls `copy_to_user(buffer, message, size_of_message)`.
If the copy succeeds (`copy_ok`), it executes `return (size_of_message = 0);`
— the assignment clears the valid length and the whole expression evaluates
to 0, which is the returned value.  On failure it leaves the state untouched
and returns `-EFAULT`.  The requested length `len` is never used. -/
def dev_read (s : State) (len : Nat) (copy_ok : Bool) : ReadResult :=
  if copy_ok then
    { state := { s with size_of_message := 0 },
      delivered := s.message.take s.size_of_message,
      ret := 0 }
  else
    { state := s, delivered := [], ret := -EFAULT }

/-- Kernel calls made by `chardev_init`, in the order the source makes
them. -/
inductive Event
  | register_chrdev
  | class_create
  | device_create
  | unregister_chrdev
  | class_destroy
  deriving DecidableEq, Repr

/-- `chardev_init`, modelled over the outcomes of the three kernel calls:
`major` is what `register_chrdev` returns (negative = failure);
`classResult = some e` means `class_create` returned an error pointer with
`PTR_ERR = e`, `none` means success; likewise `devResult` for
`device_create`.  Returns the value `chardev_init` returns and the trace of
kernel calls it made, in order. -/
def chardev_init (major : Int) (classResult : Option Int)
    (devResult : Option Int) : Int × List Event :=
  if major < 0 then
    (major, [Event.register_chrdev])
  else
    match classResult with
    | some e =>
        (e, [Event.register_chrdev, Event.class_create, Event.unregister_chrdev])
    | none =>
        match devResult with
        | some e =>
            (e, [Event.register_chrdev, Event.class_create, Event.device_create,
                 Event.class_destroy, Event.unregister_chrdev])
        | none =>
            (0, [Event.register_chrdev, Event.class_create, Event.device_create])

/-- The state after `N` successive `dev_open` calls starting from the
freshly loaded module. -/
def openN (N : Nat) : State := (fun s => (dev_open s).1)^[N] initState

/-- The bytes of `"hello"`. -/
def helloBytes : List Nat := [104, 101, 108, 108, 111]

/-- The bytes of `"hello (5 letters)"`. -/
def helloStored : List Nat :=
  [104, 101, 108, 108, 111, 32, 40, 53, 32, 108, 101, 116, 116, 101, 114, 115, 41]

/- ------------------------------------------------------------------ -/
/- Helper lemmas                                                       -/
/- ------------------------------------------------------------------ -/

theorem wrap32_step (x : Int) : wrap32 (wrap32 x + 1) = wrap32 (x + 1) := by
  unfold wrap32
  omega

theorem openN_open_num (N : Nat) : (openN N).open_num = wrap32 N := by
  induction N with
  | zero =>
      show initState.open_num = wrap32 0
      unfold initState wrap32
      norm_num
  | succ n ih =>
      show (openN (n + 1)).open_num = wrap32 (n + 1 : Nat)
      unfold openN
      rw [Function.iterate_succ_apply']
      show wrap32 ((openN n).open_num + 1) = wrap32 (n + 1 : Nat)
      rw [ih, wrap32_step]
      push_cast
      rfl

theorem cstr_of_no_nul (b : List Nat) (hz : ∀ x ∈ b, x ≠ 0) : cstr b = b := by
  induction b with
  | nil => rfl
  | cons x xs ih =>
      have hx : x ≠ 0 := hz x (by simp)
      have ihx := ih (fun y hy => hz y (by simp [hy]))
      simp [cstr, List.takeWhile_cons, hx] at ihx ⊢
      exact ihx

theorem cstr_split (b : List Nat) (hb : 0 ∈ b) :
    ∃ p q, b = p ++ 0 :: q ∧ 0 ∉ p ∧ cstr b = p := by
  induction b with
  | nil => cases hb
  | cons x xs ih =>
      by_cases hx : x = 0
      · exact ⟨[], xs, by simp [hx], by simp, by simp [cstr, hx]⟩
      · have hb' : 0 ∈ xs := by
          rcases List.mem_cons.mp hb with h | h
          · exact absurd h.symm hx
          · exact h
        obtain ⟨p, q, hpq, hp, hc⟩ := ih hb'
        refine ⟨x :: p, q, by simp [hpq], ?_, ?_⟩
        · simp [hp]
          exact fun h => hx h.symm
        · simp [cstr, List.takeWhile_cons, hx] at hc ⊢
          exact hc

/- ------------------------------------------------------------------ -/
/- Claim theorems                                                      -/
/- ------------------------------------------------------------------ -/

/-- C1 counterexample: after writing `"hello"` the slot holds 17 valid bytes;
a successful read copies those 17 bytes to the caller but returns 0, not 17,
so read does not return the number of bytes copied. -/
theorem read_returns_zero_not_count :
    (dev_read (dev_write initState helloBytes 5).1 256 true).delivered.length = 17 ∧
    (dev_read (dev_write initState helloBytes 5).1 256 true).ret ≠
      ((dev_read (dev_write initState helloBytes 5).1 256 true).delivered.length : Int) := by
  decide

/-- C1 (amended): on a successful copy, read resets the valid length to 0 and
returns 0 — the value of the assignment `size_of_message = 0` — regardless of
how many bytes were copied; the bytes copied are the valid-length prefix of
the slot. -/
theorem dev_read_success_spec (s : State) (len : Nat) :
    (dev_read s len true).state.size_of_message = 0 ∧
    (dev_read s len true).ret = 0 ∧
    (dev_read s len true).delivered = s.message.take s.size_of_message :=
  ⟨rfl, rfl, rfl⟩

/-- C2: evaluating the code at the failing input — a write of 256 non-zero
bytes — stores a composed string of 270 bytes and sets the valid length to
270, strictly above the 256-byte capacity: `sprintf` does not truncate, so
the invariant `valid length ≤ CAPACITY` is violated (the C code overruns the
`message` array). -/
theorem write_overflow_exceeds_capacity :
    ((dev_write initState (List.replicate 256 97) 256).1).size_of_message = 270 ∧
    270 > CAPACITY := by
  decide

/-- C3 counterexample: the byte sequence `b = [0]` satisfies the side
condition `len(b) + len(decimal(len(b))) + 1 ≤ 256`, yet write-then-read does
not deliver `b` followed by the length tag: `%s` stops at the zero byte, so
the zero byte itself is dropped from the slot. -/
theorem roundtrip_fails_on_nul_byte :
    [0].length + (decimalDigits [0].length).length + 1 ≤ 256 ∧
    (dev_read (dev_write initState [0] 1).1 256 true).delivered ≠
      [0] ++ lengthTag 1 := by
  decide

/-- C3 (amended): for every byte sequence `b` free of zero bytes with
`len(b) + len(decimal(len(b))) + 1 ≤ 256`, write of `b` followed by a
successful read delivers exactly `b` followed by its length tag, and a second
immediate read delivers zero bytes. -/
theorem write_read_roundtrip (b : List Nat)
    (hz : ∀ x ∈ b, x ≠ 0)
    (hcap : b.length + (decimalDigits b.length).length + 1 ≤ 256) :
    (dev_read (dev_write initState b b.length).1 256 true).delivered
        = b ++ lengthTag b.length ∧
    (dev_read (dev_read (dev_write initState b b.length).1 256 true).state
        256 true).delivered = [] := by
  constructor
  · simp [dev_read, dev_write, composed, cstr_of_no_nul b hz]
  · simp [dev_read]

theorem write_read_roundtrip_witness :
    (dev_read (dev_write initState helloBytes helloBytes.length).1 256 true).delivered
        = helloBytes ++ lengthTag helloBytes.length ∧
    (dev_read (dev_read (dev_write initState helloBytes helloBytes.length).1 256
        true).state 256 true).delivered = [] :=
  write_read_roundtrip helloBytes (by decide) (by decide)

/-- C4 counterexample: after `write("hello", 5)` the slot valid length is 17,
not 18 as the claim states — `"hello (5 letters)"` is 17 bytes. -/
theorem hello_slot_is_17_bytes_not_18 :
    ((dev_write initState helloBytes 5).1).size_of_message = 17 ∧
    ((dev_write initState helloBytes 5).1).size_of_message ≠ 18 := by
  decide

/-- C4 (amended): after `write("hello", 5)` the slot holds the bytes of
`"hello (5 letters)"` with valid length 17; a subsequent successful read
delivers those 17 bytes to the caller and leaves the valid length at 0. -/
theorem hello_scenario :
    ((dev_write initState helloBytes 5).1).message = helloStored ∧
    ((dev_write initState helloBytes 5).1).size_of_message = 17 ∧
    (dev_read (dev_write initState helloBytes 5).1 256 true).delivered = helloStored ∧
    (dev_read (dev_write initState helloBytes 5).1 256 true).state.size_of_message = 0 := by
  decide

/-- C5: when major-number allocation succeeded, a failure of class creation
releases the major number exactly once, never creates a device node, and
returns the class error; a failure of device-node creation destroys the class
exactly once and releases the major number exactly once before returning the
device error. -/
theorem chardev_init_rollback (major e d : Int) (hmaj : 0 ≤ major) :
    ((chardev_init major (some e) none).2.count Event.unregister_chrdev = 1 ∧
     (chardev_init major (some e) none).2.count Event.device_create = 0 ∧
     (chardev_init major (some e) none).1 = e) ∧
    ((chardev_init major none (some d)).2.count Event.class_destroy = 1 ∧
     (chardev_init major none (some d)).2.count Event.unregister_chrdev = 1 ∧
     (chardev_init major none (some d)).1 = d) := by
  have h' : ¬ major < 0 := not_lt.mpr hmaj
  simp only [chardev_init, if_neg h']
  exact ⟨⟨by decide, by decide, by trivial⟩, ⟨by decide, by decide, by trivial⟩⟩

theorem chardev_init_rollback_witness :
    ((chardev_init 4 (some (-12)) none).2.count Event.unregister_chrdev = 1 ∧
     (chardev_init 4 (some (-12)) none).2.count Event.device_create = 0 ∧
     (chardev_init 4 (some (-12)) none).1 = -12) ∧
    ((chardev_init 4 none (some (-19))).2.count Event.class_destroy = 1 ∧
     (chardev_init 4 none (some (-19))).2.count Event.unregister_chrdev = 1 ∧
     (chardev_init 4 none (some (-19))).1 = -19) :=
  chardev_init_rollback 4 (-12) (-19) (by norm_num)

/-- C6: if the copy to the caller buffer fails, read returns `-EFAULT` and
the whole driver state — buffer contents, valid length and open counter — is
exactly what it was before the call. -/
theorem dev_read_fault_preserves_state (s : State) (len : Nat) :
    (dev_read s len false).state = s ∧
    (dev_read s len false).ret = -EFAULT :=
  ⟨rfl, rfl⟩

/-- C7: write reports success by returning exactly the requested length
`len`, for every state, input buffer and requested length — regardless of how
many bytes the slot actually stores. -/
theorem dev_write_returns_len (s : State) (buffer : List Nat) (len : Nat) :
    (dev_write s buffer len).2 = len := rfl

/-- C8 counterexample: after 2^31 calls to open the 32-bit signed counter has
wrapped to -2^31, so the open counter after N calls does not equal N for
every N. -/
theorem open_counter_wraps_at_2_31 :
    (openN (2 ^ 31)).open_num ≠ ((2 ^ 31 : Nat) : Int) := by
  rw [openN_open_num]
  unfold wrap32
  norm_num

/-- C8 (amended): open always succeeds (returns 0) and only increments the
open counter, leaving the message slot untouched; under single-threaded
execution the counter after N opens equals N for every N below 2^31 (the
32-bit signed counter wraps beyond that). -/
theorem dev_open_spec (s : State) (N : Nat) (h : N < 2 ^ 31) :
    (dev_open s).2 = 0 ∧
    (dev_open s).1.message = s.message ∧
    (dev_open s).1.size_of_message = s.size_of_message ∧
    (openN N).open_num = N := by
  refine ⟨rfl, rfl, rfl, ?_⟩
  rw [openN_open_num]
  unfold wrap32
  omega

theorem dev_open_spec_witness :
    (dev_open initState).2 = 0 ∧
    (dev_open initState).1.message = initState.message ∧
    (dev_open initState).1.size_of_message = initState.size_of_message ∧
    (openN 3).open_num = (3 : Nat) :=
  dev_open_spec initState 3 (by norm_num)

/-- C9: the requested length has no effect on read — the result (state,
delivered bytes and return value) is identical for any two requested lengths
— and a successful read copies exactly valid-length bytes to the caller. -/
theorem dev_read_ignores_requested_len (s : State) (len1 len2 : Nat) (ok : Bool)
    (h : s.size_of_message ≤ s.message.length) :
    dev_read s len1 ok = dev_read s len2 ok ∧
    (dev_read s len1 true).delivered.length = s.size_of_message := by
  refine ⟨rfl, ?_⟩
  simp [dev_read]
  omega

theorem dev_read_ignores_requested_len_witness :
    dev_read initState 0 true = dev_read initState 99 true ∧
    (dev_read initState 0 true).delivered.length = initState.size_of_message :=
  dev_read_ignores_requested_len initState 0 99 true (by decide)

/-- C10: if the input buffer has a zero byte within the requested length,
write stores only the prefix strictly before the first zero byte, followed by
the length tag: the first zero byte and everything after it never reach the
slot. -/
theorem dev_write_stops_at_first_nul (s : State) (b : List Nat) (len : Nat)
    (hz : 0 ∈ b.take len) :
    ∃ p q, b = p ++ 0 :: q ∧ 0 ∉ p ∧
      (dev_write s b len).1.message = p ++ lengthTag len := by
  have hb : 0 ∈ b := List.take_subset len b hz
  obtain ⟨p, q, h1, h2, h3⟩ := cstr_split b hb
  exact ⟨p, q, h1, h2, by simp [dev_write, composed, h3]⟩

theorem dev_write_stops_at_first_nul_witness :
    ∃ p q, [104, 0, 105] = p ++ 0 :: q ∧ 0 ∉ p ∧
      (dev_write initState [104, 0, 105] 3).1.message = p ++ lengthTag 3 :=
  dev_write_stops_at_first_nul initState [104, 0, 105] 3 (by decide)

end Chardev
